import Mathlib

/-!
Shallow embedding of the HemoScan front-end's result-normalization and
local-persistence layer (services/apiService.ts, services/geminiService.ts,
services/storage.ts).  JS numbers are modelled as rationals; a numeric slot
that can hold NaN (from arithmetic on `undefined`) is `Option ℚ` with `none`
standing for NaN.  Randomness (`Math.random()`), fresh identifiers
(`generateUUID()`) and clock reads (`Date.now()`) are passed in as explicit
oracle parameters.
-/

/-- `types.ts` enum `AnemiaClass`. -/
inductive AnemiaClass
  | NORMAL
  | MILD
  | MODERATE
  | SEVERE
deriving DecidableEq

/-- Feature direction `'low' | 'high' | 'normal'` from `types.ts`. -/
inductive Direction
  | low
  | high
  | normal
deriving DecidableEq

/-- `types.ts` interface `ExplanationFeature`. -/
structure ExplanationFeature where
  name : String
  direction : Direction
  impact : String
deriving DecidableEq

/-- `types.ts` interface `QualityFlags`. -/
structure QualityFlags where
  sharpness_ok : Bool
  brightness_ok : Bool
  glare_detected : Bool
deriving DecidableEq

/-- A JS number that may be NaN: `none` is NaN, `some q` a finite value. -/
abbrev JNum := Option ℚ

/-- `types.ts` interface `AnalysisResult`.  The nested
`explanations.top_contributing_features` list is flattened into the single
field `explanations`.  The CI bounds are `JNum` because the code can compute
them from an absent backend field (`undefined - 0.9` is NaN in JS). -/
structure AnalysisResult where
  id : String
  timestamp : ℤ
  hb_estimate_g_dl : ℚ
  hb_ci_95 : JNum × JNum
  anemia_class : AnemiaClass
  confidence : ℚ
  tone_group : ℚ
  quality_flags : QualityFlags
  explanations : List ExplanationFeature
  imageUrl : String
deriving DecidableEq

/-- JS `a || b` for an optional string: `undefined` and `""` are falsy. -/
def jsOrS : Option String → String → String
  | some s, d => if s = "" then d else s
  | none, d => d

/-- JS `a || b` for an optional number decoded from JSON: `undefined` and `0`
are falsy (JSON never carries NaN). -/
def jsOrQ : Option ℚ → ℚ → ℚ
  | some x, d => if x = 0 then d else x
  | none, d => d

/-- JS `a <= b` where either side may be NaN: every comparison with NaN is
false. -/
def jsLe : JNum → JNum → Bool
  | some a, some b => decide (a ≤ b)
  | some _, none => false
  | none, _ => false

/-- `parseFloat(x.toFixed(1))`: round to one decimal place (half away from
zero for the nonnegative values that occur here). -/
def round1 (x : ℚ) : ℚ := (⌊x * 10 + 1/2⌋ : ℚ) / 10

/-- `parseFloat(x.toFixed(2))`: round to two decimal places. -/
def round2 (x : ℚ) : ℚ := (⌊x * 100 + 1/2⌋ : ℚ) / 100

/-- `pat` occurs at the start of `s` (character lists). -/
def startsWithChars : List Char → List Char → Bool
  | [], _ => true
  | _ :: _, [] => false
  | p :: ps, c :: cs => p == c && startsWithChars ps cs

/-- `pat` occurs somewhere inside `s` (character lists). -/
def hasSubChars (pat : List Char) : List Char → Bool
  | [] => startsWithChars pat []
  | c :: cs => startsWithChars pat (c :: cs) || hasSubChars pat cs

/-- JS `s.includes(pat)`: substring containment. -/
def jsIncludes (s pat : String) : Bool := hasSubChars pat.data s.data

/-- ASCII lowercasing of one character (the range JS `toLowerCase` and the
labels at hand actually use). -/
def charToLower (c : Char) : Char :=
  if 65 ≤ c.toNat ∧ c.toNat ≤ 90 then Char.ofNat (c.toNat + 32) else c

/-- JS `s.toLowerCase()` restricted to ASCII letters. -/
def jsToLower (s : String) : String := String.mk (s.data.map charToLower)

/-- `x.toFixed(3)` rendered as a string (used only inside impact strings). -/
def toFixed3 (c : ℚ) : String :=
  let m : ℤ := ⌊|c| * 1000 + 1/2⌋
  let frac := (m % 1000).toNat
  (if c < 0 then "-" else "") ++ toString (m / 1000) ++ "." ++
    (if frac < 10 then "00" else if frac < 100 then "0" else "") ++ toString frac

/-- One entry of the backend's `explainability.top_contributing_features`
array, with every field possibly absent. -/
structure BackendFeature where
  feature_name : Option String
  name : Option String
  contribution : Option ℚ
  explanation : Option String
deriving DecidableEq

/-- The backend's `quality` section with possibly-absent flags. -/
structure BackendQuality where
  sharpness_ok : Option Bool
  brightness_ok : Option Bool
  glare_detected : Option Bool
deriving DecidableEq

/-- The backend's `prediction` section.  Only the fields the mapper reads are
modelled. -/
structure BackendPrediction where
  hb_g_per_dl : Option ℚ
  hb_ci_95 : Option (ℚ × ℚ)
  uncertainty : Option ℚ
  anemia_class : Option String
deriving DecidableEq

/-- The structured backend's JSON envelope as read by `mapBackendToFrontend`.
The optional chains `preprocessing?.tone_cluster` and
`explainability?.top_contributing_features` are each collapsed into a single
`Option` (absence at either level behaves identically in the code). -/
structure BackendData where
  scan_id : Option String
  prediction : BackendPrediction
  quality : Option BackendQuality
  preprocessing_tone_cluster : Option ℚ
  explainability_top : Option (List BackendFeature)
deriving DecidableEq

/-- `apiService.ts` `determineDirection`. -/
def determineDirection (contribution : ℚ) : Direction :=
  if contribution < -0.1 then Direction.low
  else if contribution > 0.1 then Direction.high
  else Direction.normal

/-- The per-feature mapping inside `mapBackendToFrontend`
(`topFeatures.slice(0, 3).map(...)` body). -/
def mapFeature (f : BackendFeature) : ExplanationFeature :=
  { name := jsOrS f.feature_name (jsOrS f.name "Unknown")
    direction := determineDirection (jsOrQ f.contribution 0)
    impact := jsOrS f.explanation ("Contribution: " ++ toFixed3 (jsOrQ f.contribution 0)) }

/-- The anemia-label mapping inside `mapBackendToFrontend`:
`prediction.anemia_class?.toLowerCase() || 'normal'` followed by the
`includes` cascade severe / moderate / mild / default normal. -/
def mapAnemiaLabel (anemia_class : Option String) : AnemiaClass :=
  let anemiaLabel := jsOrS (anemia_class.map jsToLower) "normal"
  if jsIncludes anemiaLabel "severe" then AnemiaClass.SEVERE
  else if jsIncludes anemiaLabel "moderate" then AnemiaClass.MODERATE
  else if jsIncludes anemiaLabel "mild" then AnemiaClass.MILD
  else AnemiaClass.NORMAL

/-- The three fixed placeholder features used when no feature was mapped. -/
def defaultFeatures : List ExplanationFeature :=
  [ { name := "R_G_ratio", direction := Direction.normal, impact := "Color analysis" },
    { name := "vascular_density", direction := Direction.normal, impact := "Blood vessel analysis" },
    { name := "texture", direction := Direction.normal, impact := "Nail bed texture" } ]

/-- `apiService.ts` `mapBackendToFrontend`.  `freshId` is the oracle for
`generateUUID()` and `now` for `Date.now()`.  When `prediction.hb_ci_95` is
absent the bounds are computed from the raw `prediction.hb_g_per_dl` with no
default, so an absent estimate yields NaN bounds (`(none, none)`). -/
def mapBackendToFrontend (freshId : String) (now : ℤ) (backendData : BackendData)
    (imageUrl : String) : AnalysisResult :=
  let prediction := backendData.prediction
  let anemiaClass := mapAnemiaLabel prediction.anemia_class
  let topFeatures := backendData.explainability_top.getD []
  let mappedFeatures := (topFeatures.take 3).map mapFeature
  let uncertainty := jsOrQ prediction.uncertainty 0.1
  let confidence := max 0.5 (min 0.99 (1 - uncertainty))
  { id := jsOrS backendData.scan_id freshId
    timestamp := now
    hb_estimate_g_dl := round1 (jsOrQ prediction.hb_g_per_dl 12.0)
    hb_ci_95 :=
      match prediction.hb_ci_95 with
      | some ci => (some ci.1, some ci.2)
      | none =>
        match prediction.hb_g_per_dl with
        | some h => (some (round1 (h - 0.9)), some (round1 (h + 0.9)))
        | none => (none, none)
    anemia_class := anemiaClass
    confidence := round2 confidence
    tone_group := jsOrQ backendData.preprocessing_tone_cluster 3
    quality_flags :=
      { sharpness_ok := (backendData.quality.bind BackendQuality.sharpness_ok).getD true
        brightness_ok := (backendData.quality.bind BackendQuality.brightness_ok).getD true
        glare_detected := (backendData.quality.bind BackendQuality.glare_detected).getD false }
    explanations := if mappedFeatures.length > 0 then mappedFeatures else defaultFeatures
    imageUrl := imageUrl }

/-- `geminiService.ts` `generateMockResult`.  `rHb`, `rConf`, `rTone` are the
three `Math.random()` draws (each in `[0,1)`), `freshId` the `generateUUID()`
oracle and `now` the `Date.now()` oracle. -/
def generateMockResult (rHb rConf rTone : ℚ) (freshId : String) (now : ℤ)
    (imageUrl : String) : AnalysisResult :=
  let hb := 11.0 + (rHb * 4 - 2)
  let anemiaClass := AnemiaClass.NORMAL
  let anemiaClass := if hb < 11 then AnemiaClass.MILD else anemiaClass
  let anemiaClass := if hb < 9.5 then AnemiaClass.MODERATE else anemiaClass
  let anemiaClass := if hb < 8 then AnemiaClass.SEVERE else anemiaClass
  { id := freshId
    timestamp := now
    hb_estimate_g_dl := round1 hb
    hb_ci_95 := (some (round1 (hb - 0.8)), some (round1 (hb + 0.8)))
    anemia_class := anemiaClass
    confidence := 0.85 + rConf * 0.1
    tone_group := (⌊rTone * 5⌋ : ℚ) + 1
    quality_flags := { sharpness_ok := true, brightness_ok := true, glare_detected := false }
    explanations :=
      [ { name := "R_G_ratio"
          direction := if hb < 12 then Direction.low else Direction.normal
          impact := if hb < 12 then "Increases anemia risk" else "Healthy coloration" },
        { name := "vascular_density"
          direction := if hb < 10 then Direction.low else Direction.normal
          impact := "Correlation with perfusion" },
        { name := "lunula_visibility", direction := Direction.normal
          impact := "Standard morphology" } ]
    imageUrl := imageUrl }

/-- The flat JSON object the generative backend is asked to return, as used
by the success path of `geminiService.ts` `analyzeNailImage`. -/
structure GeminiData where
  hb_estimate_g_dl : ℚ
  anemia_class : AnemiaClass
  confidence : ℚ
  tone_group : ℚ
  quality_flags : QualityFlags
  explanations : List ExplanationFeature
deriving DecidableEq

/-- Outcome of the generative call: `failure` covers a thrown network error,
an empty response text, and a JSON parse error (all caught by the same
`catch`); `success` carries the parsed JSON. -/
inductive GeminiOutcome
  | failure
  | success (data : GeminiData)
deriving DecidableEq

/-- `geminiService.ts` `analyzeNailImage`.  `apiKey` models
`process.env.API_KEY` (`none` or the empty string are falsy and select the
mock path); `outcome` models the generative call; the remaining oracles feed
`generateMockResult`. -/
def analyzeNailImage (apiKey : Option String) (outcome : GeminiOutcome)
    (rHb rConf rTone : ℚ) (freshId : String) (now : ℤ) (base64Image : String) :
    AnalysisResult :=
  match apiKey with
  | none => generateMockResult rHb rConf rTone freshId now base64Image
  | some key =>
    if key = "" then generateMockResult rHb rConf rTone freshId now base64Image
    else
      match outcome with
      | GeminiOutcome.failure => generateMockResult rHb rConf rTone freshId now base64Image
      | GeminiOutcome.success data =>
        { id := freshId
          timestamp := now
          hb_estimate_g_dl := data.hb_estimate_g_dl
          hb_ci_95 :=
            (some (round1 (data.hb_estimate_g_dl - 0.9)),
             some (round1 (data.hb_estimate_g_dl + 0.9)))
          anemia_class := data.anemia_class
          confidence := data.confidence
          tone_group := data.tone_group
          quality_flags := data.quality_flags
          explanations := data.explanations
          imageUrl := base64Image }

/-- `types.ts` gender enumeration. -/
inductive Gender
  | Male
  | Female
  | Other
deriving DecidableEq

/-- `types.ts` interface `User` as stored by `storage.ts`. -/
structure User where
  id : String
  email : String
  password : String
  age : ℚ
  gender : Gender
  termsAccepted : Bool
  createdAt : ℤ
  shareData : Bool
deriving DecidableEq

/-- The localStorage state touched by `storage.ts`: the users-table key
(present JSON list or absent), the session key, and one history key per
user id. -/
structure Store where
  users : Option (List User)
  session : Option User
  histories : String → Option (List AnalysisResult)

/-- `storage.ts` `storageService.register`.  Thrown errors are modelled as
`Except.error` carrying the exact message string; the second component is the
store after the call. -/
def register (s : Store) (email password : String) (age : ℚ) (gender : Gender)
    (termsAccepted : Bool) (freshId : String) (now : ℤ) :
    Except String User × Store :=
  let users := s.users.getD []
  if users.any (fun u => u.email == email) then
    (Except.error "User already exists with this email.", s)
  else
    let newUser : User :=
      { id := freshId, email := email, password := password, age := age
        gender := gender, termsAccepted := termsAccepted, createdAt := now
        shareData := false }
    (Except.ok newUser,
      { s with users := some (users ++ [newUser]), session := some newUser })

/-- `storage.ts` `storageService.login`. -/
def login (s : Store) (email password : String) : Except String User × Store :=
  let users := s.users.getD []
  match users.find? (fun u => u.email == email && u.password == password) with
  | none => (Except.error "Invalid email or password.", s)
  | some user => (Except.ok user, { s with session := some user })

/-- `storage.ts` `storageService.logout`. -/
def logout (s : Store) : Store := { s with session := none }

/-- `storage.ts` `storageService.getCurrentUser`. -/
def getCurrentUser (s : Store) : Option User := s.session

/-- `storage.ts` `storageService.updateUser`: writes the session key first,
then (only if the users-table key exists) maps the table replacing rows whose
id matches. -/
def updateUser (s : Store) (updatedUser : User) : Store :=
  let s1 := { s with session := some updatedUser }
  match s.users with
  | some users =>
    { s1 with users := some (users.map (fun u => if u.id = updatedUser.id then updatedUser else u)) }
  | none => s1

/-- `storage.ts` `storageService.saveScan`: appends to the per-user history
list, creating it if absent. -/
def saveScan (s : Store) (userId : String) (result : AnalysisResult) : Store :=
  let history := (s.histories userId).getD []
  { s with histories := fun key => if key = userId then some (history ++ [result]) else s.histories key }

/-- `storage.ts` `storageService.getUserHistory`. -/
def getUserHistory (s : Store) (userId : String) : List AnalysisResult :=
  (s.histories userId).getD []

/-- A structured-backend `prediction` section with every field absent. -/
def emptyPrediction : BackendPrediction :=
  { hb_g_per_dl := none, hb_ci_95 := none, uncertainty := none, anemia_class := none }

/-- A structured-backend response carrying only an empty `prediction`. -/
def emptyBackendData : BackendData :=
  { scan_id := none, prediction := emptyPrediction, quality := none
    preprocessing_tone_cluster := none, explainability_top := none }

/-- A single contributing feature as the backend would send it. -/
def pallorFeature : BackendFeature :=
  { feature_name := some "pallor_index", name := none, contribution := some 0.2
    explanation := some "High pallor" }

/-- A structured-backend response whose explainability section supplies
exactly one contributing feature. -/
def oneFeatureData : BackendData :=
  { scan_id := some "scan-1"
    prediction :=
      { hb_g_per_dl := some 10, hb_ci_95 := some (9.1, 10.9)
        uncertainty := some 0.2, anemia_class := some "Mild" }
    quality := none, preprocessing_tone_cluster := some 2
    explainability_top := some [pallorFeature] }

/-- A structured-backend response supplying four contributing features. -/
def fourFeatureData : BackendData :=
  { scan_id := some "scan-2"
    prediction :=
      { hb_g_per_dl := some 11, hb_ci_95 := none
        uncertainty := some 0.1, anemia_class := some "Normal" }
    quality := none, preprocessing_tone_cluster := none
    explainability_top := some
      [ { feature_name := some "f1", name := none, contribution := some 0.3, explanation := some "a" },
        { feature_name := some "f2", name := none, contribution := some 0.2, explanation := some "b" },
        { feature_name := some "f3", name := none, contribution := some (-0.2), explanation := some "c" },
        { feature_name := some "f4", name := none, contribution := some 0, explanation := some "d" } ] }

/-- A structured-backend response with uncertainty score exactly 0. -/
def zeroUncertaintyData : BackendData :=
  { scan_id := some "scan-3"
    prediction :=
      { hb_g_per_dl := some 12, hb_ci_95 := none
        uncertainty := some 0, anemia_class := some "Normal" }
    quality := none, preprocessing_tone_cluster := none, explainability_top := none }

/-- A structured-backend response with uncertainty score 0.3. -/
def u3Data : BackendData :=
  { scan_id := some "scan-4"
    prediction :=
      { hb_g_per_dl := some 12, hb_ci_95 := none
        uncertainty := some 0.3, anemia_class := some "Normal" }
    quality := none, preprocessing_tone_cluster := none, explainability_top := none }

/-- A localStorage state with no keys set. -/
def emptyStore : Store :=
  { users := none, session := none, histories := fun _ => none }

/-- A registered user, for concrete store states. -/
def aliceUser : User :=
  { id := "u1", email := "a@x.com", password := "secret1", age := 30
    gender := Gender.Female, termsAccepted := true, createdAt := 0, shareData := false }

/-- A store whose users table holds exactly `aliceUser`. -/
def oneUserStore : Store :=
  { users := some [aliceUser], session := none, histories := fun _ => none }

/-- A user whose id matches no row of `oneUserStore`. -/
def bobUser : User :=
  { id := "u2", email := "b@x.com", password := "pw2", age := 40
    gender := Gender.Male, termsAccepted := true, createdAt := 0, shareData := false }

/-- A concrete AnalysisResult for exercising the history operations. -/
def sampleResult (n : ℤ) : AnalysisResult :=
  { id := "r", timestamp := n, hb_estimate_g_dl := 12
    hb_ci_95 := (some 11.1, some 12.9), anemia_class := AnemiaClass.NORMAL
    confidence := 0.9, tone_group := 3
    quality_flags := { sharpness_ok := true, brightness_ok := true, glare_detected := false }
    explanations := [], imageUrl := "img" }

/-!  Theorems about the embedded program.  -/

/-- C1: the claimed invariant (ordered CI, confidence in [0,1]) breaks on the
code at a structured response whose prediction omits both `hb_g_per_dl` and
`hb_ci_95`: the estimate is defaulted to 12.0 but the synthesized CI bounds
are computed from the raw absent field (`undefined - 0.9` is NaN in JS), so
the interval is `[NaN, NaN]`, which is not ordered. -/
theorem C1_ci_nan_at_empty_prediction :
    (mapBackendToFrontend "scan-0" 0 emptyBackendData "img").hb_ci_95 = (none, none) ∧
    jsLe (mapBackendToFrontend "scan-0" 0 emptyBackendData "img").hb_ci_95.1
      (mapBackendToFrontend "scan-0" 0 emptyBackendData "img").hb_ci_95.2 = false ∧
    (mapBackendToFrontend "scan-0" 0 emptyBackendData "img").hb_estimate_g_dl = 12 := by
  refine ⟨rfl, rfl, ?_⟩
  show round1 (jsOrQ none 12.0) = 12
  norm_num [round1, jsOrQ]

/-- C2 counterexample: a structured response supplying exactly one
contributing feature is normalized to a one-entry explanation list, not a
three-entry one. -/
theorem C2_counterexample_one_feature :
    (mapBackendToFrontend "s" 0 oneFeatureData "img").explanations.length = 1 ∧
    (mapBackendToFrontend "s" 0 oneFeatureData "img").explanations.length ≠ 3 := by
  refine ⟨rfl, ?_⟩
  intro h
  rw [show (mapBackendToFrontend "s" 0 oneFeatureData "img").explanations.length = 1 from rfl] at h
  exact absurd h (by decide)

/-- C2 amended: with zero supplied features the normalized list is exactly
the three fixed placeholders; with at least one supplied feature the list is
the first `min 3 n` mapped features (truncation to the top three, but no
padding). -/
theorem C2_explanations_shape (d : BackendData) (freshId : String) (now : ℤ) (img : String) :
    (d.explainability_top.getD [] = [] →
      (mapBackendToFrontend freshId now d img).explanations = defaultFeatures ∧
      (mapBackendToFrontend freshId now d img).explanations.length = 3) ∧
    (d.explainability_top.getD [] ≠ [] →
      (mapBackendToFrontend freshId now d img).explanations
        = ((d.explainability_top.getD []).take 3).map mapFeature ∧
      (mapBackendToFrontend freshId now d img).explanations.length
        = min (d.explainability_top.getD []).length 3) := by
  constructor
  · intro h
    constructor
    · simp only [mapBackendToFrontend, h]
      rfl
    · simp only [mapBackendToFrontend, h]
      rfl
  · intro h
    have hlen : 0 < (d.explainability_top.getD []).length := List.length_pos.mpr h
    have hcond : 0 < (((d.explainability_top.getD []).take 3).map mapFeature).length := by
      simp only [List.length_map, List.length_take]
      omega
    constructor
    · simp only [mapBackendToFrontend]
      rw [if_pos hcond]
    · simp only [mapBackendToFrontend]
      rw [if_pos hcond]
      simp only [List.length_map, List.length_take]
      omega

/-- C2 witness: a response with four supplied features is truncated to the
top three mapped features. -/
theorem C2_explanations_shape_witness :
    fourFeatureData.explainability_top.getD [] ≠ [] ∧
    (mapBackendToFrontend "s" 0 fourFeatureData "img").explanations
      = ((fourFeatureData.explainability_top.getD []).take 3).map mapFeature ∧
    (mapBackendToFrontend "s" 0 fourFeatureData "img").explanations.length
      = min (fourFeatureData.explainability_top.getD []).length 3 := by
  have h : fourFeatureData.explainability_top.getD [] ≠ [] := by
    simp [fourFeatureData]
  exact ⟨h, (C2_explanations_shape fourFeatureData "s" 0 "img").2 h⟩

/-- C3 counterexample: the fallback generator classifies from the raw random
draw but stores the estimate rounded to one decimal, so at draw 0.49 the raw
value 10.96 is classified Mild while the stored estimate is 11.0 — the
claimed relation "estimate ≥ 11 implies Normal" fails on the stored field. -/
theorem C3_counterexample_rounded_boundary :
    11 ≤ (generateMockResult 0.49 0 0 "i" 0 "m").hb_estimate_g_dl ∧
    (generateMockResult 0.49 0 0 "i" 0 "m").anemia_class ≠ AnemiaClass.NORMAL := by
  constructor
  · show (11 : ℚ) ≤ round1 (11.0 + (0.49 * 4 - 2))
    norm_num [round1]
  · have h : (generateMockResult 0.49 0 0 "i" 0 "m").anemia_class = AnemiaClass.MILD := by
      show (if (11.0 + ((0.49 : ℚ) * 4 - 2)) < 8 then AnemiaClass.SEVERE
            else if (11.0 + ((0.49 : ℚ) * 4 - 2)) < 9.5 then AnemiaClass.MODERATE
            else if (11.0 + ((0.49 : ℚ) * 4 - 2)) < 11 then AnemiaClass.MILD
            else AnemiaClass.NORMAL) = AnemiaClass.MILD
      norm_num
    rw [h]
    intro hc
    exact absurd hc (by decide)

/-- C3 amended: the fallback generator's classification satisfies the fixed
thresholds with respect to the raw generated hb value `11.0 + (rHb*4 - 2)`
(the stored estimate is that value rounded to one decimal, so the relation
transfers to the stored field except at threshold boundaries). -/
theorem C3_mock_thresholds (rHb rConf rTone : ℚ) (freshId : String) (now : ℤ) (img : String) :
    (11 ≤ 11.0 + (rHb * 4 - 2) →
      (generateMockResult rHb rConf rTone freshId now img).anemia_class = AnemiaClass.NORMAL) ∧
    (9.5 ≤ 11.0 + (rHb * 4 - 2) → 11.0 + (rHb * 4 - 2) < 11 →
      (generateMockResult rHb rConf rTone freshId now img).anemia_class = AnemiaClass.MILD) ∧
    (8 ≤ 11.0 + (rHb * 4 - 2) → 11.0 + (rHb * 4 - 2) < 9.5 →
      (generateMockResult rHb rConf rTone freshId now img).anemia_class = AnemiaClass.MODERATE) ∧
    (11.0 + (rHb * 4 - 2) < 8 →
      (generateMockResult rHb rConf rTone freshId now img).anemia_class = AnemiaClass.SEVERE) := by
  have hshape : (generateMockResult rHb rConf rTone freshId now img).anemia_class
      = (if (11.0 + (rHb * 4 - 2)) < 8 then AnemiaClass.SEVERE
         else if (11.0 + (rHb * 4 - 2)) < 9.5 then AnemiaClass.MODERATE
         else if (11.0 + (rHb * 4 - 2)) < 11 then AnemiaClass.MILD
         else AnemiaClass.NORMAL) := rfl
  refine ⟨?_, ?_, ?_, ?_⟩
  · intro h
    rw [hshape, if_neg (by linarith), if_neg (by linarith), if_neg (by linarith)]
  · intro h h2
    rw [hshape, if_neg (by linarith), if_neg (by linarith), if_pos h2]
  · intro h h2
    rw [hshape, if_neg (by linarith), if_pos h2]
  · intro h
    rw [hshape, if_pos h]

/-- C3 witness: the draw 0.5 gives raw hb exactly 11.0, classified Normal. -/
theorem C3_mock_thresholds_witness :
    (11 : ℚ) ≤ 11.0 + (0.5 * 4 - 2) ∧
    (generateMockResult 0.5 0 0 "i" 0 "m").anemia_class = AnemiaClass.NORMAL :=
  ⟨by norm_num, (C3_mock_thresholds 0.5 0 0 "i" 0 "m").1 (by norm_num)⟩

/-- C4 counterexample: an uncertainty score of exactly 0 is falsy in JS, so
`prediction.uncertainty || 0.1` replaces it with the default 0.1 and the
normalized confidence is 0.9, not the claimed 0.99. -/
theorem C4_counterexample_zero_uncertainty :
    (mapBackendToFrontend "s" 0 zeroUncertaintyData "img").confidence = 0.9 ∧
    (mapBackendToFrontend "s" 0 zeroUncertaintyData "img").confidence ≠ 0.99 := by
  have h : (mapBackendToFrontend "s" 0 zeroUncertaintyData "img").confidence
      = round2 (max 0.5 (min 0.99 (1 - jsOrQ (some 0) 0.1))) := rfl
  have h2 : jsOrQ (some 0) 0.1 = 0.1 := by simp [jsOrQ]
  constructor
  · rw [h, h2]
    norm_num [round2]
  · rw [h, h2]
    norm_num [round2]

/-- C4 amended: for a supplied nonzero uncertainty u the normalized
confidence is `clamp(1 - u, 0.5, 0.99)` rounded to two decimals; u = 0 is
treated as absent by the JS `||` default and yields confidence 0.9. -/
theorem C4_confidence_from_uncertainty (d : BackendData) (freshId : String) (now : ℤ)
    (img : String) (u : ℚ) (hu : d.prediction.uncertainty = some u) (hu0 : u ≠ 0) :
    (mapBackendToFrontend freshId now d img).confidence
      = round2 (max 0.5 (min 0.99 (1 - u))) := by
  have h : (mapBackendToFrontend freshId now d img).confidence
      = round2 (max 0.5 (min 0.99 (1 - jsOrQ d.prediction.uncertainty 0.1))) := rfl
  rw [h, hu]
  simp only [jsOrQ]
  rw [if_neg hu0]

/-- C4 witness: uncertainty 0.3 yields confidence 0.7. -/
theorem C4_confidence_from_uncertainty_witness :
    u3Data.prediction.uncertainty = some 0.3 ∧
    (mapBackendToFrontend "s" 0 u3Data "img").confidence
      = round2 (max 0.5 (min 0.99 (1 - 0.3))) ∧
    (mapBackendToFrontend "s" 0 u3Data "img").confidence = 0.7 := by
  have h := C4_confidence_from_uncertainty u3Data "s" 0 "img" 0.3 rfl (by norm_num)
  refine ⟨rfl, h, ?_⟩
  rw [h]
  norm_num [round2]

/-- C5: whenever no credential is configured (absent or empty key) or the
generative call/parse fails, `analyzeNailImage` returns the synthetic mock
result, whose stored hb estimate lies in [9.0, 13.0], whose quality flags are
all passing, and whose explanation list has exactly three entries. -/
theorem C5_fallback_mock (apiKey : Option String) (outcome : GeminiOutcome)
    (rHb rConf rTone : ℚ) (freshId : String) (now : ℤ) (img : String)
    (hkey : apiKey = none ∨ apiKey = some "" ∨ outcome = GeminiOutcome.failure)
    (h0 : 0 ≤ rHb) (h1 : rHb < 1) :
    analyzeNailImage apiKey outcome rHb rConf rTone freshId now img
      = generateMockResult rHb rConf rTone freshId now img ∧
    9 ≤ (analyzeNailImage apiKey outcome rHb rConf rTone freshId now img).hb_estimate_g_dl ∧
    (analyzeNailImage apiKey outcome rHb rConf rTone freshId now img).hb_estimate_g_dl ≤ 13 ∧
    (analyzeNailImage apiKey outcome rHb rConf rTone freshId now img).quality_flags
      = { sharpness_ok := true, brightness_ok := true, glare_detected := false } ∧
    (analyzeNailImage apiKey outcome rHb rConf rTone freshId now img).explanations.length = 3 := by
  have hmock : analyzeNailImage apiKey outcome rHb rConf rTone freshId now img
      = generateMockResult rHb rConf rTone freshId now img := by
    rcases hkey with h | h | h
    · rw [h]
      exact rfl
    · rw [h]
      simp [analyzeNailImage]
    · cases apiKey with
      | none => rfl
      | some key =>
        rw [h]
        simp only [analyzeNailImage]
        split_ifs <;> rfl
  rw [hmock]
  refine ⟨rfl, ?_, ?_, rfl, rfl⟩
  · show (9 : ℚ) ≤ round1 (11.0 + (rHb * 4 - 2))
    have hfl : (90 : ℤ) ≤ ⌊(11.0 + (rHb * 4 - 2)) * 10 + 1/2⌋ := by
      apply Int.le_floor.mpr
      push_cast
      linarith
    have hq : (90 : ℚ) ≤ (⌊(11.0 + (rHb * 4 - 2)) * 10 + 1/2⌋ : ℚ) := by
      exact_mod_cast hfl
    unfold round1
    linarith
  · show round1 (11.0 + (rHb * 4 - 2)) ≤ 13
    have hfl : ⌊(11.0 + (rHb * 4 - 2)) * 10 + 1/2⌋ < 131 := by
      apply Int.floor_lt.mpr
      push_cast
      linarith
    have hfl2 : ⌊(11.0 + (rHb * 4 - 2)) * 10 + 1/2⌋ ≤ 130 := by omega
    have hq : (⌊(11.0 + (rHb * 4 - 2)) * 10 + 1/2⌋ : ℚ) ≤ 130 := by
      exact_mod_cast hfl2
    unfold round1
    linarith

/-- C5 witness: no credential configured, draw 0.5. -/
theorem C5_fallback_mock_witness :
    analyzeNailImage none GeminiOutcome.failure 0.5 0 0 "i" 0 "m"
      = generateMockResult 0.5 0 0 "i" 0 "m" ∧
    9 ≤ (analyzeNailImage none GeminiOutcome.failure 0.5 0 0 "i" 0 "m").hb_estimate_g_dl ∧
    (analyzeNailImage none GeminiOutcome.failure 0.5 0 0 "i" 0 "m").hb_estimate_g_dl ≤ 13 ∧
    (analyzeNailImage none GeminiOutcome.failure 0.5 0 0 "i" 0 "m").quality_flags
      = { sharpness_ok := true, brightness_ok := true, glare_detected := false } ∧
    (analyzeNailImage none GeminiOutcome.failure 0.5 0 0 "i" 0 "m").explanations.length = 3 :=
  C5_fallback_mock none GeminiOutcome.failure 0.5 0 0 "i" 0 "m" (Or.inl rfl)
    (by norm_num) (by norm_num)

/-- C6: the normalized classification is chosen by case-insensitive substring
match on the lowercased label, in priority order severe > moderate > mild >
default normal. -/
theorem C6_label_priority (s : String) :
    (jsIncludes (jsToLower s) "severe" = true →
      mapAnemiaLabel (some s) = AnemiaClass.SEVERE) ∧
    (jsIncludes (jsToLower s) "severe" = false →
      jsIncludes (jsToLower s) "moderate" = true →
      mapAnemiaLabel (some s) = AnemiaClass.MODERATE) ∧
    (jsIncludes (jsToLower s) "severe" = false →
      jsIncludes (jsToLower s) "moderate" = false →
      jsIncludes (jsToLower s) "mild" = true →
      mapAnemiaLabel (some s) = AnemiaClass.MILD) ∧
    (jsIncludes (jsToLower s) "severe" = false →
      jsIncludes (jsToLower s) "moderate" = false →
      jsIncludes (jsToLower s) "mild" = false →
      mapAnemiaLabel (some s) = AnemiaClass.NORMAL) := by
  by_cases he : jsToLower s = ""
  · have hsev : jsIncludes (jsToLower s) "severe" = false := by
      rw [he]
      decide
    refine ⟨?_, ?_, ?_, ?_⟩
    · intro h
      rw [hsev] at h
      exact absurd h (by decide)
    · intro _ h
      have hmod : jsIncludes (jsToLower s) "moderate" = false := by
        rw [he]
        decide
      rw [hmod] at h
      exact absurd h (by decide)
    · intro _ _ h
      have hmil : jsIncludes (jsToLower s) "mild" = false := by
        rw [he]
        decide
      rw [hmil] at h
      exact absurd h (by decide)
    · intro _ _ _
      have hl : jsOrS (Option.map jsToLower (some s)) "normal" = "normal" := by
        simp [jsOrS, he]
      simp only [mapAnemiaLabel]
      rw [hl]
      decide
  · have hl : jsOrS (Option.map jsToLower (some s)) "normal" = jsToLower s := by
      simp [jsOrS, he]
    refine ⟨?_, ?_, ?_, ?_⟩
    · intro h1
      simp only [mapAnemiaLabel]
      rw [hl, h1]
      exact rfl
    · intro h1 h2
      simp only [mapAnemiaLabel]
      rw [hl, h1, h2]
      exact rfl
    · intro h1 h2 h3
      simp only [mapAnemiaLabel]
      rw [hl, h1, h2, h3]
      exact rfl
    · intro h1 h2 h3
      simp only [mapAnemiaLabel]
      rw [hl, h1, h2, h3]
      exact rfl

/-- C6 witness: a mixed-case label containing both "mild" and "severe" maps
to Severe. -/
theorem C6_label_priority_witness :
    jsIncludes (jsToLower "MiLd but SEVERE") "mild" = true ∧
    jsIncludes (jsToLower "MiLd but SEVERE") "severe" = true ∧
    mapAnemiaLabel (some "MiLd but SEVERE") = AnemiaClass.SEVERE := by
  have h : jsIncludes (jsToLower "MiLd but SEVERE") "severe" = true := by decide
  exact ⟨by decide, h, (C6_label_priority "MiLd but SEVERE").1 h⟩

/-- C7: register fails with the duplicate-email error exactly when an
existing user has the same email (exact, case-sensitive string equality); on
success it appends a new user with the fresh id, data-sharing opt-in false,
and points the session at that user, so `getCurrentUser` returns it. -/
theorem C7_register_spec (s : Store) (email password : String) (age : ℚ)
    (gender : Gender) (terms : Bool) (freshId : String) (now : ℤ) :
    ((∃ u ∈ s.users.getD [], u.email = email) →
      register s email password age gender terms freshId now
        = (Except.error "User already exists with this email.", s)) ∧
    ((∀ u ∈ s.users.getD [], u.email ≠ email) →
      ∃ nu : User,
        register s email password age gender terms freshId now
          = (Except.ok nu,
             { s with users := some (s.users.getD [] ++ [nu]), session := some nu }) ∧
        nu.id = freshId ∧ nu.email = email ∧ nu.shareData = false ∧ nu.createdAt = now ∧
        getCurrentUser (register s email password age gender terms freshId now).2 = some nu) := by
  constructor
  · intro h
    have hany : (s.users.getD []).any (fun u => u.email == email) = true := by
      rw [List.any_eq_true]
      obtain ⟨u, hu, he⟩ := h
      exact ⟨u, hu, by simp [he]⟩
    simp only [register]
    rw [if_pos hany]
  · intro h
    have hany : ¬((s.users.getD []).any (fun u => u.email == email) = true) := by
      rw [List.any_eq_true]
      rintro ⟨u, hu, he⟩
      exact h u hu (by simpa using he)
    refine ⟨{ id := freshId, email := email, password := password, age := age
              gender := gender, termsAccepted := terms, createdAt := now
              shareData := false }, ?_, rfl, rfl, rfl, rfl, ?_⟩
    · simp only [register]
      rw [if_neg hany]
    · simp only [register, getCurrentUser]
      rw [if_neg hany]

/-- C7 witness: registering into an empty store succeeds with the expected
new user and session. -/
theorem C7_register_spec_witness :
    ∃ nu : User,
      register emptyStore "a@x.com" "secret1" 30 Gender.Female true "uid-1" 5
        = (Except.ok nu,
           { emptyStore with users := some (emptyStore.users.getD [] ++ [nu]), session := some nu }) ∧
      nu.id = "uid-1" ∧ nu.email = "a@x.com" ∧ nu.shareData = false ∧ nu.createdAt = 5 ∧
      getCurrentUser (register emptyStore "a@x.com" "secret1" 30 Gender.Female true "uid-1" 5).2
        = some nu :=
  (C7_register_spec emptyStore "a@x.com" "secret1" 30 Gender.Female true "uid-1" 5).2
    (by simp [emptyStore])

/-- C8: login with a pair matching no stored user in both fields fails with
the invalid-credentials error and returns the store unchanged (no session is
written); when the lookup finds a user, only the session pointer changes, to
that user. -/
theorem C8_login_spec (s : Store) (email password : String) :
    ((∀ u ∈ s.users.getD [], ¬(u.email = email ∧ u.password = password)) →
      login s email password = (Except.error "Invalid email or password.", s)) ∧
    (∀ user : User,
      (s.users.getD []).find? (fun u => u.email == email && u.password == password) = some user →
      login s email password = (Except.ok user, { s with session := some user }) ∧
      (login s email password).2.users = s.users ∧
      (login s email password).2.histories = s.histories ∧
      getCurrentUser (login s email password).2 = some user) := by
  constructor
  · intro h
    have hf : (s.users.getD []).find? (fun u => u.email == email && u.password == password)
        = none := by
      rw [List.find?_eq_none]
      intro u hu
      simp only [Bool.and_eq_true, beq_iff_eq]
      exact fun hc => h u hu ⟨hc.1, hc.2⟩
    simp only [login, hf]
  · intro user hf
    refine ⟨?_, ?_, ?_, ?_⟩ <;> simp only [login, getCurrentUser, hf]

/-- C8 witness: wrong credential for an existing email fails and leaves the
store unchanged. -/
theorem C8_login_spec_witness :
    login oneUserStore "a@x.com" "wrong" = (Except.error "Invalid email or password.", oneUserStore) := by
  apply (C8_login_spec oneUserStore "a@x.com" "wrong").1
  intro u hu
  have hm : u = aliceUser := by simpa [oneUserStore] using hu
  rw [hm]
  intro hc
  exact absurd hc.2 (by decide)

/-- C9: two saves for the same user extend that user's history by the two
results in insertion order, on any prior store state; a user with no saved
scans has the empty history. -/
theorem C9_history_append (s : Store) (userId : String) (R1 R2 : AnalysisResult) :
    getUserHistory (saveScan (saveScan s userId R1) userId R2) userId
      = getUserHistory s userId ++ [R1, R2] ∧
    (s.histories userId = none → getUserHistory s userId = []) := by
  constructor
  · simp [getUserHistory, saveScan]
  · intro h
    simp [getUserHistory, h]

/-- C9 witness: two saves into the empty store yield exactly those two
results, and the empty store's history is empty. -/
theorem C9_history_append_witness :
    getUserHistory (saveScan (saveScan emptyStore "u1" (sampleResult 1)) "u1" (sampleResult 2)) "u1"
      = [sampleResult 1, sampleResult 2] ∧
    getUserHistory emptyStore "u1" = [] := by
  have h := C9_history_append emptyStore "u1" (sampleResult 1) (sampleResult 2)
  have h2 : getUserHistory emptyStore "u1" = [] := h.2 rfl
  exact ⟨by rw [h.1, h2]; rfl, h2⟩

/-- Helper: mapping an id-match replacement over a users table with no
matching row is the identity. -/
theorem map_update_no_match (users : List User) (u : User)
    (h : ∀ row ∈ users, row.id ≠ u.id) :
    users.map (fun row => if row.id = u.id then u else row) = users := by
  induction users with
  | nil => rfl
  | cons a t ih =>
    have ha : ¬(a.id = u.id) := h a (List.mem_cons_self a t)
    rw [List.map_cons, if_neg ha, ih (fun r hr => h r (List.mem_cons_of_mem a hr))]

/-- C10: updateUser writes the session pointer unconditionally, so for a user
whose id matches no row, the users table and histories are unchanged while
`getCurrentUser` returns the given user — the session can point at a user
absent from the users table. -/
theorem C10_updateUser_session_only (s : Store) (u : User)
    (h : ∀ row ∈ s.users.getD [], row.id ≠ u.id) :
    (updateUser s u).users = s.users ∧
    (updateUser s u).session = some u ∧
    getCurrentUser (updateUser s u) = some u ∧
    (updateUser s u).histories = s.histories ∧
    (∀ row ∈ (updateUser s u).users.getD [], row.id ≠ u.id) := by
  have husers : (updateUser s u).users = s.users := by
    cases hs : s.users with
    | none =>
      simp only [updateUser, hs]
    | some users =>
      simp only [updateUser, hs]
      rw [map_update_no_match users u (by simpa [hs] using h)]
  have hsession : (updateUser s u).session = some u := by
    cases hs : s.users with
    | none => simp only [updateUser, hs]
    | some users => simp only [updateUser, hs]
  have hhist : (updateUser s u).histories = s.histories := by
    cases hs : s.users with
    | none => simp only [updateUser, hs]
    | some users => simp only [updateUser, hs]
  exact ⟨husers, hsession, hsession, hhist, by rw [husers]; exact h⟩

/-- C10 witness: updating a user absent from a one-user table changes only
the session. -/
theorem C10_updateUser_session_only_witness :
    (updateUser oneUserStore bobUser).users = oneUserStore.users ∧
    (updateUser oneUserStore bobUser).session = some bobUser ∧
    getCurrentUser (updateUser oneUserStore bobUser) = some bobUser ∧
    (updateUser oneUserStore bobUser).histories = oneUserStore.histories ∧
    (∀ row ∈ (updateUser oneUserStore bobUser).users.getD [], row.id ≠ bobUser.id) :=
  C10_updateUser_session_only oneUserStore bobUser (by
    intro row hr
    have hm : row = aliceUser := by simpa [oneUserStore] using hr
    rw [hm]
    decide)
